import Mathlib

/-!
# Verification of MEEG-Brainstorm against its specification

Shallow embedding of the parts of the MEEG-Brainstorm repository
(`train_per_subject.py`, `models.py`, `Train.py`) that the frozen claims
are about, together with theorems settling each claim.

Conventions:
* Python `int(x)` truncates toward zero; it is modelled by `pyTrunc` on ℚ.
* Python `a // b` is floor division and raises `ZeroDivisionError` when
  `b = 0`; it is modelled by `pyFloorDiv`, with `none` standing for the
  raised (uncaught, hence surfaced-to-caller) exception.
* Python `a / b` on numbers is exact true division; on a zero divisor it
  raises; it is modelled by `pyTrueDiv` with the same `none` convention.
* Real-valued signal contents never matter for the claims below; where a
  per-example loss value appears it is carried as an opaque rational.
-/

/-- Python `int(x)`: truncation of a rational toward zero. -/
def pyTrunc (q : ℚ) : ℤ := if 0 ≤ q then ⌊q⌋ else ⌈q⌉

/-- Python floor division `a // b` on integers; `none` models the
`ZeroDivisionError` raised when `b = 0`. -/
def pyFloorDiv (a b : ℤ) : Option ℤ := if b = 0 then none else some (Int.fdiv a b)

/-- Python true division `a / b`; `none` models the `ZeroDivisionError`
raised when `b = 0`. -/
def pyTrueDiv (a b : ℚ) : Option ℚ := if b = 0 then none else some (a / b)

/-! ## Cross-validation driver (`train_per_subject.py`, lines 106-113)

For each `train_subject_id` in `subject_ids` the driver executes

    data_list = []
    labels_list = []
    spikes_list = []
    data_list.append(data[train_subject_id])
    labels_list.append(labels[train_subject_id])
    spikes_list.append(spikes[train_subject_id])

and then passes `data_list` together with `labels_list` (or `spikes_list`
for the detection method) to `Loader`.  The per-subject dictionaries
`data`, `labels`, `spikes` are modelled as functions from subject ids. -/

/-- The three lists built by the loop body of the LOPO driver for one
held-out subject and handed to the `Loader`: each starts empty and receives
a single `append` of that subject's own entry
(`train_per_subject.py:106-113`). -/
def driverTrainingLists {S α β γ : Type} (data : S → α) (labels : S → β)
    (spikes : S → γ) (heldOut : S) : List α × List β × List γ :=
  let dataList := ([] : List α).concat (data heldOut)
  let labelsList := ([] : List β).concat (labels heldOut)
  let spikesList := ([] : List γ).concat (spikes heldOut)
  (dataList, labelsList, spikesList)

/-! ## PatchEmbedding construction arithmetic (`models.py`, lines 160-188)

With `padding=True` the constructor computes (Python source, all divisions
are float true divisions wrapped in `int(...)`):

    position_padding = int(((position_stride-1) * seq_len
                            - (position_stride+1) + position_kernel) / 2)
    seq_len = int((((seq_len + 1 - position_stride) / position_stride) + 1) / 2)
    time_padding = int(((time_stride-1) * seq_len
                        - (time_stride+1) + time_kernel) / 2) + 1

and builds `Conv2d(1, 2, (1, position_kernel), stride=(1, position_stride),
padding=(0, position_padding))` followed by `Conv2d(2, emb_size,
(n_channels, time_kernel), stride=(1, time_stride),
padding=(0, time_padding))`.  The second convolution's kernel height equals
the input height `n_channels`, so its output height is 1 and the sequence
length produced by the final `Rearrange` is the second convolution's output
width.  A 2-d convolution with input width `n`, width padding `p`, width
kernel `k` and width stride `s` outputs width `floor((n + 2p - k)/s) + 1`. -/

/-- `position_padding` computed by `PatchEmbedding.__init__` (`models.py:163`). -/
def positionPadding (seqLen positionKernel positionStride : ℕ) : ℤ :=
  pyTrunc ((((positionStride : ℚ) - 1) * seqLen - (positionStride + 1)
    + positionKernel) / 2)

/-- The reassigned `seq_len` computed by `PatchEmbedding.__init__`
(`models.py:164`): the analytically-computed expected sequence length that
construction-time code tracks for the padded embedding. -/
def newSeqLen (seqLen positionStride : ℕ) : ℤ :=
  pyTrunc (((((seqLen : ℚ) + 1 - positionStride) / positionStride) + 1) / 2)

/-- `time_padding` computed by `PatchEmbedding.__init__` (`models.py:165`). -/
def timePadding (seqLen positionStride timeKernel timeStride : ℕ) : ℤ :=
  pyTrunc ((((timeStride : ℚ) - 1) * (newSeqLen seqLen positionStride : ℚ)
    - (timeStride + 1) + timeKernel) / 2) + 1

/-- Output width of a 2-d convolution along the time axis: width `n`,
width padding `p`, width kernel `k`, width stride `s` give
`floor((n + 2p - k)/s) + 1`. -/
def convOutLen (n p k : ℤ) (s : ℕ) : ℤ := Int.fdiv (n + 2 * p - k) s + 1

/-- Actual output sequence length of `PatchEmbedding.forward` with
`padding=True`: the composition of the two time-axis convolutions of
`models.py:168-177` (output height of the second convolution is 1, so the
flattened sequence length is its output width). -/
def patchEmbedOutLen (seqLen positionKernel positionStride timeKernel
    timeStride : ℕ) : ℤ :=
  let w1 := convOutLen (seqLen : ℤ) (positionPadding seqLen positionKernel positionStride)
    (positionKernel : ℤ) positionStride
  convOutLen w1 (timePadding seqLen positionStride timeKernel timeStride)
    (timeKernel : ℤ) timeStride

/-! ## ChannelAttention scaling (`models.py`, lines 87-92)

    self.pooling = nn.AvgPool2d(kernel_size=(1, kernel), stride=(1, stride))
    query_size = (emb_size-kernel) / stride      # float true division!
    query_size += 1
    self.scaling = query_size ** (1/2)

The callers instantiate `ChannelAttention(n_channels, n_time_points, ...)`,
so the constructor's `emb_size` argument is the time length `T`.  The
attention logits are divided by `self.scaling`, i.e. by the square root of
`query_size`.  Since the square-root function is injective on nonnegative
reals, the code's divisor equals `sqrt(v)` exactly when `query_size = v`;
the definitions below therefore work with the squared quantities. -/

/-- The square of the divisor applied to the attention logits:
`query_size = (emb_size - kernel) / stride + 1` with exact (float) division,
no floor (`models.py:90-92`).  `embSize` is the time length `T` at every
call site. -/
def channelAttentionScalingSq (embSize kernel stride : ℕ) : ℚ :=
  ((embSize : ℚ) - kernel) / stride + 1

/-- The pooled-time length actually produced by
`nn.AvgPool2d(kernel_size=(1, kernel), stride=(1, stride))` on width `T`:
`floor((T - kernel)/stride) + 1`. -/
def avgPoolTimeLen (T kernel stride : ℕ) : ℤ :=
  Int.fdiv ((T : ℤ) - kernel) stride + 1

/-! ## ChannelAttention forward shape semantics (`models.py`, lines 101-136)

The claim C5 is about tensor shapes, so the forward pass is embedded at the
shape level: every operation of the source is translated into its effect on
a 4-d shape, with `none` for the shape errors the underlying framework
raises (a linear layer applied to a mismatched last dimension, pooling with
a kernel larger than its input, inconsistent `einsum` operand shapes).
Value-level content (softmax, dropout, learned weights) cannot change
shapes and is noted in comments where the source applies it. -/

/-- Shape of a 4-d tensor `[b, o, h, w]` (`w` is the last axis). -/
structure Shape4 where
  b : ℕ
  o : ℕ
  h : ℕ
  w : ℕ
deriving DecidableEq, Repr

/-- `rearrange 'b o c t -> b o t c'` (and its inverse): swap the last two
axes. -/
def swapHW (s : Shape4) : Shape4 := ⟨s.b, s.o, s.w, s.h⟩

/-- Shape effect of `nn.Linear(features, features)` (as in the
`query`/`key`/`projection` blocks, each `Linear` + `LayerNorm` + activation
/ dropout over the last axis): requires the last dimension to equal
`features` and preserves the shape. -/
def linearLastShape (features : ℕ) (s : Shape4) : Option Shape4 :=
  if s.w = features then some s else none

/-- Shape effect of `nn.AvgPool2d(kernel_size=(1, k), stride=(1, s))`:
height kernel 1 and stride 1 give height `(h - 1)/1 + 1`, width kernel `k`
and stride `st` give width `(w - k)/st + 1`; the kernel must fit and the
stride must be positive. -/
def avgPool2dShape (k st : ℕ) (s : Shape4) : Option Shape4 :=
  if 1 ≤ st ∧ k ≤ s.w ∧ 1 ≤ s.h then
    some ⟨s.b, s.o, (s.h - 1) / 1 + 1, (s.w - k) / st + 1⟩
  else none

/-- Shape effect of `torch.einsum('b o c t, b o m t -> b o c m', q, k)`:
the shared labels `b`, `o`, `t` must agree; `t` is contracted and the
output is `[b, o, c, m]`. -/
def einsumQKShape (q k : Shape4) : Option Shape4 :=
  if q.b = k.b ∧ q.o = k.o ∧ q.w = k.w then some ⟨q.b, q.o, q.h, k.h⟩ else none

/-- Shape effect of `torch.einsum('b o c t, b o c m -> b o c t', x, a)`:
the shared labels `b`, `o`, `c` must agree; `m` is contracted and the
output keeps the shape of `x`. -/
def einsumVAShape (x a : Shape4) : Option Shape4 :=
  if x.b = a.b ∧ x.o = a.o ∧ x.h = a.h then some ⟨x.b, x.o, x.h, x.w⟩ else none

/-- Shape semantics of `ChannelAttention.forward` (`models.py:101-136`),
operation by operation in source order.  `seqLen` is the constructor's
`seq_len` (the channel count at every call site); `kernel`/`stride` are the
average-pooling parameters. -/
def channelAttentionForwardShape (seqLen kernel stride : ℕ) (x : Shape4) :
    Option Shape4 :=
  -- temp = rearrange(x, 'b o c t -> b o t c')
  let temp := swapHW x
  -- temp_query = rearrange(self.query(temp), 'b o t c -> b o c t')
  (linearLastShape seqLen temp).bind fun tq =>
  -- channel_query = self.pooling(temp_query)
  (avgPool2dShape kernel stride (swapHW tq)).bind fun channelQuery =>
  -- temp_key = rearrange(self.key(temp), 'b o t c -> b o c t')
  (linearLastShape seqLen temp).bind fun tk2 =>
  -- channel_key = self.pooling(temp_key)
  (avgPool2dShape kernel stride (swapHW tk2)).bind fun channelKey =>
  -- channel_atten = einsum('b o c t, b o m t -> b o c m', query, key) / scaling
  -- softmax (dim=-1) and dropout preserve the shape
  (einsumQKShape channelQuery channelKey).bind fun attenScore =>
  -- out = einsum('b o c t, b o c m -> b o c t', x, channel_atten_score)
  (einsumVAShape x attenScore).bind fun out1 =>
  -- out = rearrange(out, 'b o c t -> b o t c'); out = self.projection(out)
  -- out = rearrange(out, 'b o t c -> b o c t')
  (linearLastShape seqLen (swapHW out1)).map swapHW

/-! ## Mix-up coefficient fold (`Train.py`, line 176)

`lambdas = torch.reshape(torch.tensor(np.maximum(lambdas, 1-lambdas)), ...)`
applied elementwise to the Beta-sampled coefficients. -/

/-- The elementwise fold `np.maximum(lambda, 1 - lambda)` applied to each
mix-up coefficient (`Train.py:176`). -/
def mixupFold (lam : ℚ) : ℚ := max lam (1 - lam)

/-! ## Zero-example metric computations (`Train.py`, lines 229, 262, 361)

* line 229: `train_acc = 100 * correct // total`
* line 262: `test_acc = 100 * test_correct // test_total`
* line 361: `accuracy = correct / total * 100`

All three divide by the number of examples seen; Python raises
`ZeroDivisionError` (here `none`) when that count is zero. -/

/-- Training-pass epoch accuracy `100 * correct // total` (`Train.py:229`). -/
def trainEpochAccuracy (correct total : ℕ) : Option ℤ :=
  pyFloorDiv (100 * (correct : ℤ)) (total : ℤ)

/-- Validation-pass epoch accuracy `100 * test_correct // test_total`
(`Train.py:262`). -/
def testEpochAccuracy (correct total : ℕ) : Option ℤ :=
  pyFloorDiv (100 * (correct : ℤ)) (total : ℤ)

/-- Evaluation-path accuracy `correct / total * 100` (`Train.py:361`). -/
def evaluateAccuracy (correct total : ℕ) : Option ℚ :=
  (pyTrueDiv (correct : ℚ) (total : ℚ)).map (fun q => q * 100)

/-! ## Mix-up batch loss (`Train.py`, lines 163-216)

`self.criterion_cls = torch.nn.CrossEntropyLoss()` uses the default
`reduction='mean'`, so each call `self.criterion_cls(outputs, labels)`
returns the **mean** of the per-example cross-entropy values over the
batch.  The per-example cross-entropy values themselves are transcendental
floating-point quantities irrelevant to the claim, so they are carried as
opaque rational lists; only the reduction arithmetic is embedded.

Mix-up branch (lines 192-194):

    loss = lambdas.squeeze()*criterion(mix_outputs, labels)
           + (1-lambdas.squeeze())*criterion(mix_outputs, rolled_labels)
    loss = loss.sum()

`lambdas.squeeze()` is a length-`B` vector and each criterion call a
scalar, so the sum runs over `B` copies of
`lam_i * mean + (1 - lam_i) * mean'`.

Non-mix-up branch (line 216): `loss = self.criterion_cls(outputs, labels)`,
a single batch mean.  When every `lam_i = 1` the mixed input equals the
original input, so `mix_outputs = outputs` and the per-example
cross-entropy list against the original labels is the same in both
branches. -/

/-- `torch.nn.CrossEntropyLoss()` with its default `'mean'` reduction,
applied to the list of per-example cross-entropy values of a batch. -/
def criterionMean (perExample : List ℚ) : ℚ := perExample.sum / perExample.length

/-- The mix-up branch batch loss (`Train.py:193-194`): elementwise
`lam_i * criterion(mix_outputs, labels) + (1-lam_i) * criterion(mix_outputs,
rolled_labels)` followed by `.sum()`.  `ceOrig` and `ceRolled` are the
per-example cross-entropy lists of `mix_outputs` against the original and
the rolled labels. -/
def mixUpBatchLoss (lambdas ceOrig ceRolled : List ℚ) : ℚ :=
  (lambdas.map (fun lam =>
    lam * criterionMean ceOrig + (1 - lam) * criterionMean ceRolled)).sum

/-- The non-mix-up branch batch loss (`Train.py:216`): a single
mean-reduced criterion call against the original labels. -/
def plainBatchLoss (ceOrig : List ℚ) : ℚ := criterionMean ceOrig

/-! ## Best-metric trackers (`Train.py`, lines 272-282)

    if test_acc > bestAcc:
        bestAcc = test_acc
        best_epochs_acc = e
        Y_true_acc = Predictions
        Y_pred_acc = Labels
    if np.mean(f1_test) > bestF1:
        bestF1 = np.mean(f1_test)
        best_epochs_F1 = e
        Y_true_F1 = Predictions
        Y_pred_F1 = Labels

`Predictions` is the list of per-batch model-prediction arrays and
`Labels` the list of per-batch true-label arrays gathered during the
validation pass (`Train.py:258-259`).  `test_acc` is an integer (floor
division) and `np.mean(f1_test)` a real scalar.  The function's docstring
(`Train.py:117-120`) documents `Y_true_acc`/`Y_true_F1` as the labels and
`Y_pred_acc`/`Y_pred_F1` as the predictions at the best epochs. -/

/-- The mutable tracker variables of `Trans.train` (`Train.py:141-153`). -/
structure TrackerState where
  bestAcc : ℤ
  bestEpochsAcc : ℕ
  yTrueAcc : List (List ℤ)
  yPredAcc : List (List ℤ)
  bestF1 : ℚ
  bestEpochsF1 : ℕ
  yTrueF1 : List (List ℤ)
  yPredF1 : List (List ℤ)
deriving DecidableEq, Repr

/-- The first `if` of the epoch-end tracker update (`Train.py:272-276`). -/
def updateBestAcc (e : ℕ) (testAcc : ℤ) (predictions labels : List (List ℤ))
    (st : TrackerState) : TrackerState :=
  if st.bestAcc < testAcc then
    { st with
      bestAcc := testAcc
      bestEpochsAcc := e
      yTrueAcc := predictions
      yPredAcc := labels }
  else st

/-- The second `if` of the epoch-end tracker update (`Train.py:278-282`). -/
def updateBestF1 (e : ℕ) (meanF1 : ℚ) (predictions labels : List (List ℤ))
    (st : TrackerState) : TrackerState :=
  if st.bestF1 < meanF1 then
    { st with
      bestF1 := meanF1
      bestEpochsF1 := e
      yTrueF1 := predictions
      yPredF1 := labels }
  else st

/-- The two sequential tracker updates executed at the end of epoch `e`
(`Train.py:272-282`). -/
def updateBest (e : ℕ) (testAcc : ℤ) (meanF1 : ℚ)
    (predictions labels : List (List ℤ)) (st : TrackerState) : TrackerState :=
  updateBestF1 e meanF1 predictions labels
    (updateBestAcc e testAcc predictions labels st)

/-- A concrete tracker state for the witnesses below. -/
def demoTracker : TrackerState :=
  ⟨50, 3, [[1]], [[0]], 1 / 2, 4, [[1, 1]], [[0, 0]]⟩

/-! ## Per-epoch metric recording (`Train.py`, lines 161-232 and 241-265)

Both the training pass and the validation pass run the same accumulation
over their batches: the loop variable `loss` is rebound to each batch's
loss, while `correct` and `total` accumulate.  After the loop,
`train_info[e]["Loss"] = loss...` (line 230) / `test_info[e]["Loss"] =
test_loss...` (line 263) record the loop variable — the **last** batch's
loss — and `train_acc = 100 * correct // total` (line 229) /
`test_acc = 100 * test_correct // test_total` (line 262) aggregate the
whole epoch. -/

/-- The data of one batch as seen by the metric accumulation: its loss
value and its correct/total prediction counts. -/
structure BatchStats where
  loss : ℚ
  correct : ℕ
  total : ℕ
deriving DecidableEq, Repr

/-- The accumulator variables of an epoch pass: the loop variable `loss`
(`none` before the first batch, when the name is still unbound) and the
running `correct`/`total` counters. -/
structure EpochAcc where
  lastLoss : Option ℚ
  correct : ℕ
  total : ℕ
deriving DecidableEq, Repr

/-- One iteration of the per-batch loop: the `loss` variable is rebound to
the current batch's loss; `correct` and `total` are incremented
(`Train.py:216-225` / `249-254`). -/
def epochStep (acc : EpochAcc) (b : BatchStats) : EpochAcc :=
  ⟨some b.loss, acc.correct + b.correct, acc.total + b.total⟩

/-- Run the per-batch loop of an epoch pass over its batches. -/
def runEpoch (batches : List BatchStats) : EpochAcc :=
  batches.foldl epochStep ⟨none, 0, 0⟩

/-- The loss value stored into `train_info[e]["Loss"]` /
`test_info[e]["Loss"]` after the loop (`Train.py:230` / `263`). -/
def recordedLoss (batches : List BatchStats) : Option ℚ :=
  (runEpoch batches).lastLoss

/-- The accuracy stored into the per-epoch record
(`Train.py:229-231` / `262-264`). -/
def recordedAccuracy (batches : List BatchStats) : Option ℤ :=
  trainEpochAccuracy (runEpoch batches).correct (runEpoch batches).total

/-- A concrete epoch (two batches) for the C8 witness. -/
def demoBatches : List BatchStats := [⟨1, 2, 3⟩, ⟨5, 1, 4⟩]

/-! ## Helper lemmas -/

/-- Unfolding one batch element of the mix-up loss sum. -/
theorem mixUpBatchLoss_cons (a : ℚ) (l ceOrig ceRolled : List ℚ) :
    mixUpBatchLoss (a :: l) ceOrig ceRolled =
      (a * criterionMean ceOrig + (1 - a) * criterionMean ceRolled) +
        mixUpBatchLoss l ceOrig ceRolled := by
  simp [mixUpBatchLoss]

/-- If every coefficient is 1, the mix-up sum collapses to
`batch_size * (mean cross-entropy against the original labels)`. -/
theorem mixUpBatchLoss_all_one (lambdas ceOrig ceRolled : List ℚ) :
    (∀ lam ∈ lambdas, lam = 1) →
    mixUpBatchLoss lambdas ceOrig ceRolled =
      (lambdas.length : ℚ) * plainBatchLoss ceOrig := by
  induction lambdas with
  | nil => intro _; simp [mixUpBatchLoss]
  | cons a l ih =>
    intro h
    have ha : a = 1 := h a (List.mem_cons_self a l)
    have hl : ∀ lam ∈ l, lam = 1 := fun lam hm => h lam (List.mem_cons_of_mem a hm)
    rw [mixUpBatchLoss_cons, ih hl, ha]
    push_cast [List.length_cons]
    unfold plainBatchLoss
    ring

/-- If every coefficient is 1/2, the mix-up sum weighs the two mean
cross-entropies equally, `batch_size/2` each. -/
theorem mixUpBatchLoss_all_half (lambdas ceOrig ceRolled : List ℚ) :
    (∀ lam ∈ lambdas, lam = 1 / 2) →
    mixUpBatchLoss lambdas ceOrig ceRolled =
      (lambdas.length : ℚ) / 2 * (criterionMean ceOrig + criterionMean ceRolled) := by
  induction lambdas with
  | nil => intro _; simp [mixUpBatchLoss]
  | cons a l ih =>
    intro h
    have ha : a = 1 / 2 := h a (List.mem_cons_self a l)
    have hl : ∀ lam ∈ l, lam = 1 / 2 := fun lam hm => h lam (List.mem_cons_of_mem a hm)
    rw [mixUpBatchLoss_cons, ih hl, ha]
    push_cast [List.length_cons]
    ring

/-- The acc-branch update never touches the F1 tracker fields. -/
theorem updateBestAcc_f1_fields (e : ℕ) (testAcc : ℤ)
    (predictions labels : List (List ℤ)) (st : TrackerState) :
    (updateBestAcc e testAcc predictions labels st).bestF1 = st.bestF1 ∧
    (updateBestAcc e testAcc predictions labels st).bestEpochsF1 = st.bestEpochsF1 ∧
    (updateBestAcc e testAcc predictions labels st).yTrueF1 = st.yTrueF1 ∧
    (updateBestAcc e testAcc predictions labels st).yPredF1 = st.yPredF1 := by
  unfold updateBestAcc
  split <;> exact ⟨rfl, rfl, rfl, rfl⟩

/-- The F1-branch update never touches the accuracy tracker fields. -/
theorem updateBestF1_acc_fields (e : ℕ) (meanF1 : ℚ)
    (predictions labels : List (List ℤ)) (st : TrackerState) :
    (updateBestF1 e meanF1 predictions labels st).bestAcc = st.bestAcc ∧
    (updateBestF1 e meanF1 predictions labels st).bestEpochsAcc = st.bestEpochsAcc ∧
    (updateBestF1 e meanF1 predictions labels st).yTrueAcc = st.yTrueAcc ∧
    (updateBestF1 e meanF1 predictions labels st).yPredAcc = st.yPredAcc := by
  unfold updateBestF1
  split <;> exact ⟨rfl, rfl, rfl, rfl⟩

/-- The `correct` and `total` accumulators of the epoch loop sum the
per-batch counts. -/
theorem runEpoch_foldl_counts (init : EpochAcc) (batches : List BatchStats) :
    (batches.foldl epochStep init).correct =
      init.correct + (batches.map (fun b => b.correct)).sum ∧
    (batches.foldl epochStep init).total =
      init.total + (batches.map (fun b => b.total)).sum := by
  induction batches generalizing init with
  | nil => simp
  | cons a l ih =>
    rcases ih (epochStep init a) with ⟨h1, h2⟩
    constructor
    · rw [List.foldl_cons, h1]
      simp [epochStep]
      omega
    · rw [List.foldl_cons, h2]
      simp [epochStep]
      omega

/-- After a nonempty batch list, the epoch loop's `loss` variable holds the
last batch's loss. -/
theorem runEpoch_foldl_lastLoss (init : EpochAcc) (batches : List BatchStats)
    (h : batches ≠ []) :
    (batches.foldl epochStep init).lastLoss =
      some ((batches.getLast h).loss) := by
  induction batches generalizing init with
  | nil => exact absurd rfl h
  | cons a l ih =>
    cases l with
    | nil => simp [epochStep]
    | cons b m =>
      rw [List.foldl_cons, ih (epochStep init a) (List.cons_ne_nil b m)]
      rw [List.getLast_cons (List.cons_ne_nil b m)]

/-! ## Claim theorems -/

/-- C1: In the cross-validation driver, the training lists passed to the
Loader for a held-out subject each contain exactly one element — that
subject's own data, labels and spike arrays; no other subject's entry is
ever aggregated into them. -/
theorem driver_training_list_is_single_held_out_subject
    {S α β γ : Type} (data : S → α) (labels : S → β) (spikes : S → γ)
    (heldOut : S) :
    (driverTrainingLists data labels spikes heldOut).1 = [data heldOut] ∧
    (driverTrainingLists data labels spikes heldOut).2.1 = [labels heldOut] ∧
    (driverTrainingLists data labels spikes heldOut).2.2 = [spikes heldOut] ∧
    (driverTrainingLists data labels spikes heldOut).1.length = 1 ∧
    (∀ x ∈ (driverTrainingLists data labels spikes heldOut).1, x = data heldOut) := by
  refine ⟨rfl, rfl, rfl, rfl, ?_⟩
  intro x hx
  simpa [driverTrainingLists] using hx

/-- C2 (code bug evaluation): at the valid configuration `seq_len = 100`,
`position_kernel = 10`, `position_stride = 2`, `time_kernel = 5`,
`time_stride = 2` (both paddings nonnegative, both convolution output
widths positive), the sequence length computed at construction time is 25
while the forward pass actually outputs a sequence of length 62; the
output length also fails to preserve the original `seq_len = 100`
promised by the constructor's comment and the forward docstring. -/
theorem patchEmbedding_seq_len_mismatch :
    positionPadding 100 10 2 = 53 ∧
    newSeqLen 100 2 = 25 ∧
    timePadding 100 2 5 2 = 14 ∧
    convOutLen 100 (positionPadding 100 10 2) 10 2 = 99 ∧
    patchEmbedOutLen 100 10 2 5 2 = 62 ∧
    patchEmbedOutLen 100 10 2 5 2 ≠ newSeqLen 100 2 ∧
    patchEmbedOutLen 100 10 2 5 2 ≠ 100 := by
  refine ⟨?_, ?_, ?_, ?_, ?_, ?_, ?_⟩ <;>
    simp [positionPadding, newSeqLen, timePadding, convOutLen,
      patchEmbedOutLen, pyTrunc] <;> norm_num [Int.fdiv]

/-- C3 (counterexample): with batch size 2, all mix-up coefficients equal
to 1 and per-example cross-entropy values `[1, 3]` against the original
labels (the rolled-label values `[5, 7]` receive weight 0), the mix-up
branch computes `4` — the **sum** over the batch of the mean loss — while
the non-mix-up branch computes the mean `2` on the same batch. -/
theorem mixup_loss_at_one_ne_plain_loss :
    mixUpBatchLoss [1, 1] [1, 3] [5, 7] = 4 ∧
    plainBatchLoss [1, 3] = 2 ∧
    mixUpBatchLoss [1, 1] [1, 3] [5, 7] ≠ plainBatchLoss [1, 3] := by
  refine ⟨?_, ?_, ?_⟩ <;>
    norm_num [mixUpBatchLoss, plainBatchLoss, criterionMean]

/-- C3 (amended): when every mix-up coefficient equals 1 the batch loss of
the mix-up branch equals `batch_size` times the loss the non-mix-up branch
would compute on the same batch (the branch sums per-example copies of the
batch-mean loss, so the two coincide only for batch size 1); when every
coefficient equals 1/2 the original-label and rolled-label terms contribute
equally (`batch_size/2` weight each, hence the loss is symmetric in the two
label lists). -/
theorem mixup_loss_lambda_extremes (lambdas ceOrig ceRolled : List ℚ) :
    ((∀ lam ∈ lambdas, lam = 1) →
      mixUpBatchLoss lambdas ceOrig ceRolled =
        (lambdas.length : ℚ) * plainBatchLoss ceOrig) ∧
    ((∀ lam ∈ lambdas, lam = 1 / 2) →
      mixUpBatchLoss lambdas ceOrig ceRolled =
        (lambdas.length : ℚ) / 2 * (criterionMean ceOrig + criterionMean ceRolled) ∧
      mixUpBatchLoss lambdas ceOrig ceRolled =
        mixUpBatchLoss lambdas ceRolled ceOrig) := by
  refine ⟨mixUpBatchLoss_all_one lambdas ceOrig ceRolled, fun h =>
    ⟨mixUpBatchLoss_all_half lambdas ceOrig ceRolled h, ?_⟩⟩
  rw [mixUpBatchLoss_all_half lambdas ceOrig ceRolled h,
    mixUpBatchLoss_all_half lambdas ceRolled ceOrig h]
  ring

/-- Witness for C3 (amended) at batch size 2. -/
theorem mixup_loss_lambda_extremes_witness :
    (mixUpBatchLoss [1, 1] [2, 4] [6, 8] =
      (([1, 1] : List ℚ).length : ℚ) * plainBatchLoss [2, 4]) ∧
    (mixUpBatchLoss [1 / 2, 1 / 2] [2, 4] [6, 8] =
      (([1 / 2, 1 / 2] : List ℚ).length : ℚ) / 2 *
        (criterionMean [2, 4] + criterionMean [6, 8]) ∧
      mixUpBatchLoss [1 / 2, 1 / 2] [2, 4] [6, 8] =
        mixUpBatchLoss [1 / 2, 1 / 2] [6, 8] [2, 4]) :=
  ⟨(mixup_loss_lambda_extremes [1, 1] [2, 4] [6, 8]).1 (by simp),
   (mixup_loss_lambda_extremes [1 / 2, 1 / 2] [2, 4] [6, 8]).2 (by simp)⟩

/-- C4 (counterexample): at `T = 10`, `K = 3`, `S = 2` the square of the
divisor applied to the attention logits is `query_size = 9/2`, while the
pooled-time length is `T' = floor((10-3)/2)+1 = 4`; since square root is
injective on nonnegative reals, the divisor is not `sqrt(T')`. -/
theorem channelAttention_scaling_ne_sqrt_pooled_len :
    channelAttentionScalingSq 10 3 2 = 9 / 2 ∧
    avgPoolTimeLen 10 3 2 = 4 ∧
    channelAttentionScalingSq 10 3 2 ≠ ((avgPoolTimeLen 10 3 2 : ℤ) : ℚ) := by
  refine ⟨?_, ?_, ?_⟩ <;>
    norm_num [channelAttentionScalingSq, avgPoolTimeLen, Int.fdiv]

/-- C4 (amended): the divisor applied to the attention logits is the square
root of `(T - K)/S + 1` computed with exact division and no floor; it
equals the square root of the pooled-time length `T' = floor((T-K)/S) + 1`
precisely when `S` divides `T - K` (stated via the squared quantities,
square root being injective on nonnegative reals). -/
theorem channelAttention_scaling_eq_pooled_iff_dvd (T K S : ℕ)
    (hS : 0 < S) (hK : K ≤ T) :
    channelAttentionScalingSq T K S = ((avgPoolTimeLen T K S : ℤ) : ℚ) ↔
    (S : ℤ) ∣ ((T : ℤ) - K) := by
  have hS0 : (S : ℤ) ≠ 0 := by exact_mod_cast hS.ne.symm
  have hSQ : (S : ℚ) ≠ 0 := by exact_mod_cast hS.ne.symm
  have hcast : ((T : ℚ) - K) = (((T : ℤ) - K : ℤ) : ℚ) := by push_cast; ring
  constructor
  · intro h
    unfold channelAttentionScalingSq avgPoolTimeLen at h
    rw [hcast] at h
    have h2 : ((((T : ℤ) - K : ℤ) : ℚ)) =
        ((Int.fdiv ((T : ℤ) - K) S : ℤ) : ℚ) * (S : ℚ) := by
      field_simp at h
      push_cast at h ⊢
      linarith
    have h3 : ((T : ℤ) - K) = Int.fdiv ((T : ℤ) - K) S * S := by
      exact_mod_cast h2
    exact Dvd.intro_left _ h3.symm
  · intro h
    obtain ⟨m, hm⟩ := h
    unfold channelAttentionScalingSq avgPoolTimeLen
    rw [hcast, hm, Int.mul_fdiv_cancel_left m hS0]
    push_cast
    field_simp

/-- Witness for C4 (amended) at `T = 10`, `K = 4`, `S = 2`. -/
theorem channelAttention_scaling_eq_pooled_iff_dvd_witness :
    0 < 2 ∧ 4 ≤ 10 ∧
    (channelAttentionScalingSq 10 4 2 = ((avgPoolTimeLen 10 4 2 : ℤ) : ℚ) ↔
      (2 : ℤ) ∣ ((10 : ℤ) - 4)) :=
  ⟨by norm_num, by norm_num,
    channelAttention_scaling_eq_pooled_iff_dvd 10 4 2 (by norm_num) (by norm_num)⟩

/-- C5: for every input shape `[B, 1, C, T]` and every valid pooling
configuration (`K ≤ T`, `1 ≤ S`, at least one channel),
`ChannelAttention.forward` returns a tensor of the same shape
`[B, 1, C, T]`. -/
theorem channelAttention_forward_preserves_shape (B C T K S : ℕ)
    (hC : 1 ≤ C) (hK : K ≤ T) (hS : 1 ≤ S) :
    channelAttentionForwardShape C K S ⟨B, 1, C, T⟩ = some ⟨B, 1, C, T⟩ := by
  have hC1 : (C - 1) / 1 + 1 = C := by omega
  simp [channelAttentionForwardShape, swapHW, linearLastShape,
    avgPool2dShape, einsumQKShape, einsumVAShape, hC, hK, hS, hC1]

/-- Witness for C5 at `B = 2`, `C = 3`, `T = 10`, `K = 3`, `S = 2`. -/
theorem channelAttention_forward_preserves_shape_witness :
    1 ≤ 3 ∧ 3 ≤ 10 ∧ 1 ≤ 2 ∧
    channelAttentionForwardShape 3 3 2 ⟨2, 1, 3, 10⟩ = some ⟨2, 1, 3, 10⟩ :=
  ⟨by norm_num, by norm_num, by norm_num,
    channelAttention_forward_preserves_shape 2 3 10 3 2 (by norm_num)
      (by norm_num) (by norm_num)⟩

/-- C6: after the `max(lambda, 1-lambda)` fold, every mix-up coefficient
drawn from `[0,1]` lies in `[1/2, 1]`, so the original example always
receives at least half the weight in its own mix. -/
theorem mixupFold_mem_Icc (lam : ℚ) (h0 : 0 ≤ lam) (h1 : lam ≤ 1) :
    1 / 2 ≤ mixupFold lam ∧ mixupFold lam ≤ 1 := by
  unfold mixupFold
  constructor
  · rcases le_total lam (1 - lam) with h | h
    · calc (1 : ℚ) / 2 ≤ 1 - lam := by linarith
        _ ≤ max lam (1 - lam) := le_max_right _ _
    · calc (1 : ℚ) / 2 ≤ lam := by linarith
        _ ≤ max lam (1 - lam) := le_max_left _ _
  · exact max_le h1 (by linarith)

/-- Witness for C6 at `lam = 3/10`. -/
theorem mixupFold_mem_Icc_witness :
    (0 : ℚ) ≤ 3 / 10 ∧ (3 : ℚ) / 10 ≤ 1 ∧
    (1 / 2 ≤ mixupFold (3 / 10) ∧ mixupFold (3 / 10) ≤ 1) :=
  ⟨by norm_num, by norm_num, mixupFold_mem_Icc (3 / 10) (by norm_num) (by norm_num)⟩

/-- C7: the best-accuracy tracker (value, epoch index, retained arrays) is
updated only when the epoch's validation accuracy strictly exceeds the
current best, and likewise for the best-F1 tracker; when the metric is
equal to (or below) the current best, every corresponding tracker field
keeps the earlier epoch's value. -/
theorem tracker_ties_keep_earlier_epoch (e : ℕ) (testAcc : ℤ) (meanF1 : ℚ)
    (predictions labels : List (List ℤ)) (st : TrackerState) :
    (testAcc ≤ st.bestAcc →
      ((updateBest e testAcc meanF1 predictions labels st).bestAcc = st.bestAcc ∧
       (updateBest e testAcc meanF1 predictions labels st).bestEpochsAcc = st.bestEpochsAcc ∧
       (updateBest e testAcc meanF1 predictions labels st).yTrueAcc = st.yTrueAcc ∧
       (updateBest e testAcc meanF1 predictions labels st).yPredAcc = st.yPredAcc)) ∧
    (meanF1 ≤ st.bestF1 →
      ((updateBest e testAcc meanF1 predictions labels st).bestF1 = st.bestF1 ∧
       (updateBest e testAcc meanF1 predictions labels st).bestEpochsF1 = st.bestEpochsF1 ∧
       (updateBest e testAcc meanF1 predictions labels st).yTrueF1 = st.yTrueF1 ∧
       (updateBest e testAcc meanF1 predictions labels st).yPredF1 = st.yPredF1)) := by
  constructor
  · intro h
    have hA : updateBestAcc e testAcc predictions labels st = st := by
      unfold updateBestAcc
      rw [if_neg (not_lt.mpr h)]
    unfold updateBest
    rw [hA]
    exact updateBestF1_acc_fields e meanF1 predictions labels st
  · intro h
    have hF : (updateBestAcc e testAcc predictions labels st).bestF1 = st.bestF1 :=
      (updateBestAcc_f1_fields e testAcc predictions labels st).1
    have hB : updateBestF1 e meanF1 predictions labels
        (updateBestAcc e testAcc predictions labels st) =
        updateBestAcc e testAcc predictions labels st := by
      unfold updateBestF1
      rw [if_neg (by rw [hF]; exact not_lt.mpr h)]
    unfold updateBest
    rw [hB]
    exact updateBestAcc_f1_fields e testAcc predictions labels st

/-- Witness for C7 at a tied epoch (`testAcc = bestAcc = 50`,
`meanF1 = bestF1 = 1/2`). -/
theorem tracker_ties_keep_earlier_epoch_witness :
    (((updateBest 7 50 (1 / 2) [[9]] [[8]] demoTracker).bestAcc = demoTracker.bestAcc ∧
      (updateBest 7 50 (1 / 2) [[9]] [[8]] demoTracker).bestEpochsAcc = demoTracker.bestEpochsAcc ∧
      (updateBest 7 50 (1 / 2) [[9]] [[8]] demoTracker).yTrueAcc = demoTracker.yTrueAcc ∧
      (updateBest 7 50 (1 / 2) [[9]] [[8]] demoTracker).yPredAcc = demoTracker.yPredAcc)) ∧
    (((updateBest 7 50 (1 / 2) [[9]] [[8]] demoTracker).bestF1 = demoTracker.bestF1 ∧
      (updateBest 7 50 (1 / 2) [[9]] [[8]] demoTracker).bestEpochsF1 = demoTracker.bestEpochsF1 ∧
      (updateBest 7 50 (1 / 2) [[9]] [[8]] demoTracker).yTrueF1 = demoTracker.yTrueF1 ∧
      (updateBest 7 50 (1 / 2) [[9]] [[8]] demoTracker).yPredF1 = demoTracker.yPredF1)) :=
  ⟨(tracker_ties_keep_earlier_epoch 7 50 (1 / 2) [[9]] [[8]] demoTracker).1
      (by norm_num [demoTracker]),
   (tracker_ties_keep_earlier_epoch 7 50 (1 / 2) [[9]] [[8]] demoTracker).2
      (by norm_num [demoTracker])⟩

/-- C10: whenever a best-metric update fires, the returned tuple's
`Y_true_acc`/`Y_true_F1` positions — documented as the true labels at the
best epochs — receive the `Predictions` array, and the
`Y_pred_acc`/`Y_pred_F1` positions — documented as the predictions —
receive the `Labels` array: the two arrays of each pair are swapped
relative to the documented return contract. -/
theorem tracker_stores_predictions_in_label_slots (e : ℕ) (testAcc : ℤ)
    (meanF1 : ℚ) (predictions labels : List (List ℤ)) (st : TrackerState) :
    (st.bestAcc < testAcc →
      ((updateBest e testAcc meanF1 predictions labels st).yTrueAcc = predictions ∧
       (updateBest e testAcc meanF1 predictions labels st).yPredAcc = labels)) ∧
    (st.bestF1 < meanF1 →
      ((updateBest e testAcc meanF1 predictions labels st).yTrueF1 = predictions ∧
       (updateBest e testAcc meanF1 predictions labels st).yPredF1 = labels)) := by
  constructor
  · intro h
    have hA : updateBestAcc e testAcc predictions labels st =
        { st with
          bestAcc := testAcc
          bestEpochsAcc := e
          yTrueAcc := predictions
          yPredAcc := labels } := by
      unfold updateBestAcc
      rw [if_pos h]
    unfold updateBest
    rcases updateBestF1_acc_fields e meanF1 predictions labels
      (updateBestAcc e testAcc predictions labels st) with ⟨_, _, h3, h4⟩
    rw [h3, h4, hA]
    exact ⟨rfl, rfl⟩
  · intro h
    have hF : (updateBestAcc e testAcc predictions labels st).bestF1 = st.bestF1 :=
      (updateBestAcc_f1_fields e testAcc predictions labels st).1
    unfold updateBest updateBestF1
    rw [if_pos (by rw [hF]; exact h)]
    exact ⟨rfl, rfl⟩

/-- Witness for C10 at a strictly improving epoch
(`testAcc = 60 > 50`, `meanF1 = 3/4 > 1/2`). -/
theorem tracker_stores_predictions_in_label_slots_witness :
    (((updateBest 7 60 (3 / 4) [[9]] [[8]] demoTracker).yTrueAcc = [[9]] ∧
      (updateBest 7 60 (3 / 4) [[9]] [[8]] demoTracker).yPredAcc = [[8]])) ∧
    (((updateBest 7 60 (3 / 4) [[9]] [[8]] demoTracker).yTrueF1 = [[9]] ∧
      (updateBest 7 60 (3 / 4) [[9]] [[8]] demoTracker).yPredF1 = [[8]])) :=
  ⟨(tracker_stores_predictions_in_label_slots 7 60 (3 / 4) [[9]] [[8]] demoTracker).1
      (by norm_num [demoTracker]),
   (tracker_stores_predictions_in_label_slots 7 60 (3 / 4) [[9]] [[8]] demoTracker).2
      (by norm_num [demoTracker])⟩

/-- C8: for an epoch with at least one batch, the per-epoch record stores
as its loss exactly the last batch's loss (the loop variable after the
loop), while the recorded accuracy aggregates the `correct`/`total` counts
of all batches of the epoch; the same accumulation is run by the training
pass (`train_info`) and the validation pass (`test_info`). -/
theorem epoch_records_last_loss_and_full_accuracy (batches : List BatchStats)
    (h : batches ≠ []) :
    recordedLoss batches = some ((batches.getLast h).loss) ∧
    recordedAccuracy batches =
      trainEpochAccuracy ((batches.map (fun b => b.correct)).sum)
        ((batches.map (fun b => b.total)).sum) := by
  constructor
  · exact runEpoch_foldl_lastLoss ⟨none, 0, 0⟩ batches h
  · unfold recordedAccuracy runEpoch
    rcases runEpoch_foldl_counts ⟨none, 0, 0⟩ batches with ⟨h1, h2⟩
    rw [h1, h2]
    simp

/-- Witness for C8 on a concrete two-batch epoch. -/
theorem epoch_records_last_loss_and_full_accuracy_witness :
    recordedLoss demoBatches = some ((demoBatches.getLast (by simp [demoBatches])).loss) ∧
    recordedAccuracy demoBatches =
      trainEpochAccuracy ((demoBatches.map (fun b => b.correct)).sum)
        ((demoBatches.map (fun b => b.total)).sum) :=
  epoch_records_last_loss_and_full_accuracy demoBatches (by simp [demoBatches])

/-- C9: with zero total examples, the training-pass, validation-pass and
evaluation-path accuracy computations all fail with a division-by-zero
error (the raised `ZeroDivisionError`, modelled as `none`) instead of
producing a silent NaN value. -/
theorem zero_total_examples_is_division_error (correct : ℕ) :
    trainEpochAccuracy correct 0 = none ∧
    testEpochAccuracy correct 0 = none ∧
    evaluateAccuracy correct 0 = none := by
  refine ⟨?_, ?_, ?_⟩ <;> simp [trainEpochAccuracy, testEpochAccuracy,
    evaluateAccuracy, pyFloorDiv, pyTrueDiv]
